import Mathlib

/-!
Shallow embedding of the RimeTool tray-controller core (src/main.rs).

The OS process table is modelled as a list of process names.  Calls into
external libraries (image decoding, icon conversion, tray construction,
TOML parsing, process spawning) are modelled as explicit parameters of
`Except`/`Option` type, so that every code path of the source is a total
Lean function of its inputs.
-/

namespace RimeTool

/-- The OS process table seen by the sysinfo snapshot: a list of process
names, one entry per live process. -/
abbrev ProcTable := List String

/-- Embedding of `System::processes_by_name(name)`: the matching processes of the
table. -/
def processes_by_name (name : String) (t : ProcTable) : List String :=
  t.filter (fun p => p == name)

/-- The server executable name used throughout `main.rs`
(`"WeaselServer.exe"`). -/
def serverExe : String := "WeaselServer.exe"

/-- The deployer executable name used by `rime_redeploy`
(`"WeaselDeployer.exe"`). -/
def deployerExe : String := "WeaselDeployer.exe"

/-- Structure `ToolConfig { root }` from `main.rs`. -/
structure ToolConfig where
  root : String
deriving DecidableEq, Repr

/-- The Windows fallback value of `default_rime_root` (the registry read
having failed). -/
def default_rime_root : String := "C:/Program Files (x86)/Rime/weasel-0.15.0"

/-- Value of `ToolConfig::default()`: root is `default_rime_root`. -/
def toolConfigDefault : ToolConfig := { root := default_rime_root }

/-- Embedding of `load_config`: the resolved file read is `fileContents` (`None` when
no config file could be read), `parse` is `toml::from_str`.  The source
turns a missing file into the empty string (`unwrap_or_default`) and a
failed parse into `ToolConfig::default()` (`unwrap_or_default`). -/
def load_config (parse : String → Option ToolConfig)
    (fileContents : Option String) : ToolConfig :=
  (parse (fileContents.getD "")).getD toolConfigDefault

/-- Embedding of `Path::new(root).join(file)`. -/
def joinPath (root file : String) : String := root ++ "/" ++ file

/-- A request handed to `Command::new(path).args(args).spawn()`. -/
structure SpawnRequest where
  path : String
  args : List String
deriving DecidableEq, Repr

/-- The spawn request built by `rime_start_service`:
`CONFIG.root` joined with `WeaselServer.exe`, argument `/restart`. -/
def rime_start_service_request (cfg : ToolConfig) : SpawnRequest :=
  { path := joinPath cfg.root serverExe, args := ["/restart"] }

/-- The spawn request built by `rime_redeploy`:
`CONFIG.root` joined with `WeaselDeployer.exe`, argument `/deploy`. -/
def rime_redeploy_request (cfg : ToolConfig) : SpawnRequest :=
  { path := joinPath cfg.root deployerExe, args := ["/deploy"] }

/-- The body of the worker thread spawned by `rime_start_service`:
`if let Err(e) = spawn { error!("failed to restart. {} {}", path, e) }`.
The result of `spawn()` is the input; the output is the list of log
lines emitted.  There is no error channel: the worker always returns. -/
def rime_start_service_thread (path : String)
    (spawnResult : Except String Unit) : List String :=
  match spawnResult with
  | .ok _ => []
  | .error e => ["failed to restart. " ++ path ++ " " ++ e]

/-- The body of the worker thread spawned by `rime_redeploy`:
logs `failed to deploy.` on spawn error, returns nothing otherwise. -/
def rime_redeploy_thread (path : String)
    (spawnResult : Except String Unit) : List String :=
  match spawnResult with
  | .ok _ => []
  | .error e => ["failed to deploy. " ++ path ++ " " ++ e]

/-- The effect of `rime_start_service` on the process table, under the
assumption (made explicit by the spec) that the spawned
`WeaselServer.exe` process is live before the next inspector query. -/
def rime_start_service_effect (t : ProcTable) : ProcTable :=
  t ++ [serverExe]

/-- Embedding of `rime_stop_service`: kills every process returned by
`processes_by_name("WeaselServer.exe")`; the survivors are exactly the
non-matching processes.  The Rust function's return type is `()`. -/
def rime_stop_service (t : ProcTable) : ProcTable :=
  t.filter (fun p => !(p == serverExe))

/-- The Rust return value of `rime_stop_service`, paired with the table
it leaves behind: the function returns unit, not a count. -/
def rime_stop_service_ret (t : ProcTable) : ProcTable × Unit :=
  (rime_stop_service t, ())

/-- How many processes a call to `rime_stop_service` on table `t` kills:
the number of matching processes present when it runs. -/
def killed_count (t : ProcTable) : Nat :=
  (processes_by_name serverExe t).length

/-- Modelled from the spec: the Process Inspector contract
`kill_all(name) -> count_killed` of section 4.1, which the claim C5
attributes to `rime_stop_service`.  It returns the surviving table and
the count of processes killed. -/
def kill_all_spec (name : String) (t : ProcTable) : ProcTable × Nat :=
  (t.filter (fun p => !(p == name)), (processes_by_name name t).length)

/-- Embedding of `get_service_status`: a fresh process-table snapshot, then
`processes_by_name("WeaselServer.exe").count() > 0`. -/
def get_service_status (t : ProcTable) : Bool :=
  decide (0 < (processes_by_name serverExe t).length)

/-- Embedding of `toggle_service(checked)`: `rime_start_service` when checked,
`rime_stop_service` otherwise; shown as its effect on the table (spawn
assumed complete before the next query, kill is synchronous). -/
def toggle_service (checked : Bool) (t : ProcTable) : ProcTable :=
  if checked then rime_start_service_effect t else rime_stop_service t

/-- Enum `TrayUserEvent` of `main.rs`. -/
inductive TrayUserEvent
  | Quit
  | ServiceClicked
  | IconClicked
  | UpdateService (b : Bool)
deriving DecidableEq, Repr

/-- The events delivered to the `event_loop.run` closure: the user
events above, plus the non-user tao events (`NewEvents` and everything
else, collapsed into a tagged `other` constructor since the closure
treats them all by `_ => {}`). -/
inductive LoopEvent
  | userEvent (e : TrayUserEvent)
  | newEvents
  | other (tag : Nat)
deriving DecidableEq, Repr

/-- Control-flow values the closure assigns: `WaitUntil(..16ms..)`
at the top of every iteration, overwritten by `Exit` on `Quit`. -/
inductive LoopControlFlow
  | WaitUntil
  | Exit
deriving DecidableEq, Repr

/-- The mutable state owned by the dispatch loop: the `Option<TrayIcon>`
resource, the checkbox (`service.is_checked()`), the process table, and
a count of how many times the tray-icon resource was actually released
(a `take()` that found `Some`). -/
structure AppState where
  trayIcon : Option Unit
  checkbox : Bool
  procs : ProcTable
  releases : Nat
deriving DecidableEq, Repr

/-- One iteration of the `event_loop.run` closure: set
`control_flow = WaitUntil`, then match the event.  `Quit` takes the
tray icon and sets `Exit`; `IconClicked` runs `update_service_status`;
`ServiceClicked` runs `toggle_service(service.is_checked())` then
`update_service_status`; every other event falls to `_ => {}`. -/
def step (s : AppState) (e : LoopEvent) : AppState × LoopControlFlow :=
  match e with
  | .userEvent .Quit =>
      ({ s with trayIcon := none,
                releases := s.releases + (if s.trayIcon.isSome then 1 else 0) },
       .Exit)
  | .userEvent .IconClicked =>
      ({ s with checkbox := get_service_status s.procs }, .WaitUntil)
  | .userEvent .ServiceClicked =>
      let procs := toggle_service s.checkbox s.procs
      ({ s with procs := procs, checkbox := get_service_status procs },
       .WaitUntil)
  | _ => (s, .WaitUntil)

/-- The dispatch loop run on a queue of events: events are processed in
FIFO order until `ControlFlow::Exit` is set, after which no further
event reaches the closure. -/
def run (s : AppState) : List LoopEvent → AppState
  | [] => s
  | e :: es =>
      match step s e with
      | (s', .Exit) => s'
      | (s', .WaitUntil) => run s' es

/-- The state after each processed event: entry `i` is the state
immediately after the loop finished processing event `i`.  The trace
stops at the event that set `Exit`. -/
def runTrace (s : AppState) : List LoopEvent → List AppState
  | [] => []
  | e :: es =>
      match step s e with
      | (s', .Exit) => [s']
      | (s', .WaitUntil) => s' :: runTrace s' es

/-- Notifications of type `TrayIconEvent` delivered to the tray-icon
handler: `Click` plus every non-Click variant (Enter, Move, Leave,
DoubleClick, ...), collapsed into a tagged constructor since the
handler treats them all by `_ => ()`. -/
inductive TrayIconNotification
  | Click (button : Nat)
  | NonClick (tag : Nat)
deriving DecidableEq, Repr

/-- The tray-icon event handler of `create_tray`: a `Click` sends
`IconClicked` through the proxy; every other notification sends
nothing. -/
def tray_icon_event_handler : TrayIconNotification → Option TrayUserEvent
  | .Click _ => some TrayUserEvent.IconClicked
  | .NonClick _ => none

/-- Structure `RgbaIcon` from `main.rs`. -/
structure RgbaIcon where
  rgba : List Nat
  width : Nat
  height : Nat
deriving DecidableEq, Repr

/-- A computation that either panics (aborting the process) or returns a
value. -/
inductive PanicOr (α : Type)
  | panic (msg : String)
  | ok (a : α)
deriving DecidableEq, Repr

/-- Embedding of `load_icon`: `image::load_from_memory` is the `decode` input; a
decode error panics via `panic_if_err!` with the source's message. -/
def load_icon (decode : Except String RgbaIcon) : PanicOr RgbaIcon :=
  match decode with
  | .error e => .panic ("Faild to load icon: " ++ e)
  | .ok img => .ok img

/-- Structure `TrayIconContext` from `main.rs`: the built tray icon (already an
`Option`, because `create_tray` uses `.build().ok()`) and the service
`CheckMenuItem`, represented by its checked flag (created with
`checked = true`). -/
structure TrayIconContext where
  tray_icon : Option Unit
  service : Bool
deriving DecidableEq, Repr

/-- Embedding of `create_tray`: decodes the icon (panic on failure), converts it
twice via `from_rgba` (panic on failure, `panic_if_err!`), then builds
the tray icon with `TrayIconBuilder...build().ok()` — a build error is
converted to `None`, not a panic.  The external fallible calls are the
function's inputs. -/
def create_tray (decode : Except String RgbaIcon)
    (miconFromRgba : RgbaIcon → Except String Unit)
    (iconFromRgba : RgbaIcon → Except String Unit)
    (trayBuild : Except String Unit) : PanicOr TrayIconContext :=
  match load_icon decode with
  | .panic m => .panic m
  | .ok img =>
      match miconFromRgba img with
      | .error e => .panic ("Failed to load icon. " ++ e)
      | .ok _ =>
          match iconFromRgba img with
          | .error e => .panic ("Failed to load icon. " ++ e)
          | .ok _ => .ok { tray_icon := trayBuild.toOption, service := true }

/-- Embedding of `start`: builds the tray (propagating a startup panic), then enters
the dispatch loop with the tray context and an initial process table,
processing the given event queue. -/
def start (decode : Except String RgbaIcon)
    (miconFromRgba : RgbaIcon → Except String Unit)
    (iconFromRgba : RgbaIcon → Except String Unit)
    (trayBuild : Except String Unit)
    (procs : ProcTable) (events : List LoopEvent) : PanicOr AppState :=
  match create_tray decode miconFromRgba iconFromRgba trayBuild with
  | .panic m => .panic m
  | .ok ctx =>
      .ok (run { trayIcon := ctx.tray_icon, checkbox := ctx.service,
                 procs := procs, releases := 0 } events)

/-- The outcome of `main`'s single-instance guard. -/
inductive StartupOutcome
  | alreadyRunning
  | proceed
deriving DecidableEq, Repr

/-- The single-instance guard in `main`: count the processes matching
the current executable's file name; `count > 1` warns and calls
`std::process::exit(0)` before `start()` runs; otherwise startup
proceeds to `start()`. -/
def main_startup (exeName : String) (t : ProcTable) : StartupOutcome :=
  if 1 < (processes_by_name exeName t).length then .alreadyRunning
  else .proceed


/-! ## Theorems -/

/-- Helper: after the loop processes an `IconClicked` or `ServiceClicked`
event, the checkbox equals the freshly computed service status. -/
theorem step_resync (s : AppState) (e : LoopEvent)
    (hev : e = .userEvent .IconClicked ∨ e = .userEvent .ServiceClicked) :
    ((step s e).1).checkbox = get_service_status ((step s e).1).procs := by
  rcases hev with rfl | rfl <;> rfl

/-- C2: processing `ServiceToggleRequested` (`ServiceClicked`) in the
running loop reads the current checkbox state, starts the service if it
is checked and stops it otherwise, then re-queries the inspector and
sets the checkbox to the result; the control flow stays `WaitUntil`
(the loop remains running). -/
theorem c2_service_toggle_transition (s : AppState) :
    step s (.userEvent .ServiceClicked) =
      ({ s with procs := toggle_service s.checkbox s.procs,
                checkbox := get_service_status (toggle_service s.checkbox s.procs) },
       .WaitUntil) ∧
    (∀ t, toggle_service true t = rime_start_service_effect t) ∧
    (∀ t, toggle_service false t = rime_stop_service t) :=
  ⟨rfl, fun _ => rfl, fun _ => rfl⟩

/-- C3: the single-instance guard reports already-running (terminating
before tray creation and the loop) exactly when more than one process
carries the current executable's name; with exactly one such process,
startup proceeds. -/
theorem c3_single_instance_guard (exeName : String) (t : ProcTable) :
    (1 < (processes_by_name exeName t).length →
      main_startup exeName t = .alreadyRunning) ∧
    ((processes_by_name exeName t).length = 1 →
      main_startup exeName t = .proceed) := by
  constructor
  · intro h
    simp [main_startup, h]
  · intro h
    simp [main_startup, h]

theorem c3_single_instance_guard_witness :
    main_startup "rimetool.exe" ["rimetool.exe", "rimetool.exe"] =
      StartupOutcome.alreadyRunning ∧
    main_startup "rimetool.exe" ["rimetool.exe", "other.exe"] =
      StartupOutcome.proceed :=
  ⟨(c3_single_instance_guard "rimetool.exe" ["rimetool.exe", "rimetool.exe"]).1
      (by decide),
   (c3_single_instance_guard "rimetool.exe" ["rimetool.exe", "other.exe"]).2
      (by decide)⟩

/-- C4: `get_service_status` is false exactly when zero processes match
the server executable name and true exactly when at least one does; it
is a pure function of the process table (no side effects, so repeated
queries agree), and processing `IconActivated` (`IconClicked`) sets the
checkbox to exactly this value. -/
theorem c4_get_service_status (s : AppState) :
    (get_service_status s.procs = false ↔
      (processes_by_name serverExe s.procs).length = 0) ∧
    (get_service_status s.procs = true ↔
      1 ≤ (processes_by_name serverExe s.procs).length) ∧
    (step s (.userEvent .IconClicked)).1.checkbox = get_service_status s.procs ∧
    (step s (.userEvent .IconClicked)).1.procs = s.procs := by
  refine ⟨?_, ?_, rfl, rfl⟩
  · simp only [get_service_status, decide_eq_false_iff_not, Nat.not_lt]
    omega
  · simp only [get_service_status, decide_eq_true_eq]
    omega

/-- C5 counterexample: `rime_stop_service` does not return the count of
processes killed — its Rust return value is `()`, identical for a call
that kills two processes and a call that kills zero, while the spec's
`kill_all` contract returns 2 and 0 respectively. -/
theorem c5_counterexample :
    (rime_stop_service_ret [serverExe, serverExe]).2 =
      (rime_stop_service_ret []).2 ∧
    (kill_all_spec serverExe [serverExe, serverExe]).2 = 2 ∧
    (kill_all_spec serverExe []).2 = 0 := by
  refine ⟨rfl, by decide, rfl⟩

/-- C5 (amended): `rime_stop_service` kills every matching process and
returns unit (no count); it raises no error when zero processes match,
and it is idempotent: after a first call no matching process remains,
so a second call kills zero processes and leaves the table unchanged. -/
theorem c5_stop_service_idempotent (t : ProcTable) :
    processes_by_name serverExe (rime_stop_service t) = [] ∧
    rime_stop_service (rime_stop_service t) = rime_stop_service t ∧
    killed_count (rime_stop_service t) = 0 ∧
    rime_stop_service_ret [] = ([], ()) := by
  have h1 : processes_by_name serverExe (rime_stop_service t) = [] := by
    simp [processes_by_name, rime_stop_service, List.filter_filter]
  refine ⟨h1, ?_, ?_, rfl⟩
  · simp [rime_stop_service, List.filter_filter]
  · simp [killed_count, h1]

/-- C6: for any configured root, `rime_start_service` builds the spawn
request `root/WeaselServer.exe` with the `/restart` flag and
`rime_redeploy` builds `root/WeaselDeployer.exe` with the `/deploy`
flag; the worker-thread bodies log a spawn failure and emit nothing on
success, and their return type carries no error, so failure is never
propagated to the caller. -/
theorem c6_spawn_paths (cfg : ToolConfig) (msg : String) :
    rime_start_service_request cfg =
      { path := cfg.root ++ "/" ++ serverExe, args := ["/restart"] } ∧
    rime_redeploy_request cfg =
      { path := cfg.root ++ "/" ++ deployerExe, args := ["/deploy"] } ∧
    rime_start_service_thread (rime_start_service_request cfg).path (.error msg) =
      ["failed to restart. " ++ (rime_start_service_request cfg).path ++ " " ++ msg] ∧
    rime_redeploy_thread (rime_redeploy_request cfg).path (.error msg) =
      ["failed to deploy. " ++ (rime_redeploy_request cfg).path ++ " " ++ msg] ∧
    rime_start_service_thread (rime_start_service_request cfg).path (.ok ()) = [] ∧
    rime_redeploy_thread (rime_redeploy_request cfg).path (.ok ()) = [] :=
  ⟨rfl, rfl, rfl, rfl, rfl, rfl⟩

/-- C9: `load_config` is total — it returns a `ToolConfig` for every
input — and falls back to the default configuration both when the
config file is missing (the source then parses the empty string, which
the TOML parser maps to the default or fails) and when the file's
contents do not parse. -/
theorem c9_load_config_total_fallback (parse : String → Option ToolConfig)
    (contents : Option String)
    (hempty : parse "" = none ∨ parse "" = some toolConfigDefault) :
    (contents = none → load_config parse contents = toolConfigDefault) ∧
    (∀ s, contents = some s → parse s = none →
      load_config parse contents = toolConfigDefault) ∧
    (∃ c, load_config parse contents = c) := by
  refine ⟨?_, ?_, ⟨_, rfl⟩⟩
  · rintro rfl
    rcases hempty with h | h <;> simp [load_config, h]
  · rintro s rfl h
    simp [load_config, h]

theorem c9_load_config_total_fallback_witness :
    load_config (fun _ => none) (some "not - valid - toml") = toolConfigDefault :=
  (c9_load_config_total_fallback (fun _ => none) (some "not - valid - toml")
      (Or.inl rfl)).2.1 "not - valid - toml" rfl rfl

/-- C10: every loop event other than the user events `Quit`,
`IconClicked` and `ServiceClicked` — including the never-sent
`UpdateService(bool)` variant and the non-user tao events — leaves the
whole state (checkbox, tray icon, process table, release count)
unchanged and keeps the loop running; and every non-Click tray-icon
notification makes the handler emit no user event at all. -/
theorem c10_frame (s : AppState) (e : LoopEvent)
    (h : e ≠ .userEvent .Quit ∧ e ≠ .userEvent .IconClicked ∧
         e ≠ .userEvent .ServiceClicked) :
    step s e = (s, .WaitUntil) ∧
    (∀ tag, tray_icon_event_handler (.NonClick tag) = none) := by
  obtain ⟨h1, h2, h3⟩ := h
  refine ⟨?_, fun _ => rfl⟩
  cases e with
  | userEvent u =>
      cases u with
      | Quit => exact absurd rfl h1
      | IconClicked => exact absurd rfl h2
      | ServiceClicked => exact absurd rfl h3
      | UpdateService b => rfl
  | newEvents => rfl
  | other tag => rfl

/-- C7: a `Quit` event while the loop is running (tray icon still held)
sets `ControlFlow::Exit` — the terminal state — and releases the tray
icon resource exactly once; any events queued after the `Quit`,
including further `Quit` events, are never processed, so no double
release can occur. -/
theorem c7_quit_releases_once (s : AppState) (es : List LoopEvent)
    (h : s.trayIcon = some ()) :
    (step s (.userEvent .Quit)).2 = LoopControlFlow.Exit ∧
    run s (.userEvent .Quit :: es) =
      { s with trayIcon := none, releases := s.releases + 1 } ∧
    run s (.userEvent .Quit :: es) = run s [.userEvent .Quit] ∧
    (run s (.userEvent .Quit :: es)).releases = s.releases + 1 ∧
    (run s (.userEvent .Quit :: es)).trayIcon = none := by
  have hstep : step s (.userEvent .Quit) =
      ({ s with trayIcon := none, releases := s.releases + 1 }, .Exit) := by
    simp [step, h]
  have hrun : ∀ l, run s (.userEvent .Quit :: l) =
      { s with trayIcon := none, releases := s.releases + 1 } := by
    intro l
    simp [run, hstep]
  exact ⟨by rw [hstep], hrun es, by rw [hrun es, hrun []], by rw [hrun es],
    by rw [hrun es]⟩

theorem c7_quit_releases_once_witness :
    run ⟨some (), true, [], 0⟩ [.userEvent .Quit, .userEvent .Quit] =
      ⟨none, true, [], 1⟩ :=
  (c7_quit_releases_once ⟨some (), true, [], 0⟩ [.userEvent .Quit] rfl).2.1

/-- C8 counterexample: tray-build failure is not fatal — with the icon
decoded and converted successfully but `TrayIconBuilder::build` failing,
`create_tray` returns normally with `tray_icon = None` (the source uses
`.build().ok()`), and `start` enters the dispatch loop with the tray
icon missing instead of aborting the process. -/
theorem c8_counterexample :
    create_tray (.ok ⟨[], 1, 1⟩) (fun _ => .ok ()) (fun _ => .ok ())
        (.error "tray build failed") =
      .ok { tray_icon := none, service := true } ∧
    start (.ok ⟨[], 1, 1⟩) (fun _ => .ok ()) (fun _ => .ok ())
        (.error "tray build failed") [] [] =
      .ok ⟨none, true, [], 0⟩ :=
  ⟨rfl, rfl⟩

/-- C8 (amended): failure to decode the icon image, or to convert it to
a menu or tray icon, is fatal at startup — the process panics before
the dispatch loop starts; failure of the tray-icon build itself is not
fatal: its result is converted to an `Option` and, when the icon
conversions succeed, the loop is entered with the build's result as the
(possibly absent) tray icon. -/
theorem c8_icon_failure_fatal (m : String)
    (micon icon : RgbaIcon → Except String Unit) (tb : Except String Unit)
    (img : RgbaIcon) :
    create_tray (.error m) micon icon tb = .panic ("Faild to load icon: " ++ m) ∧
    (∀ ps es, start (.error m) micon icon tb ps es =
      .panic ("Faild to load icon: " ++ m)) ∧
    (micon img = .error m →
      create_tray (.ok img) micon icon tb = .panic ("Failed to load icon. " ++ m)) ∧
    (micon img = .ok () → icon img = .ok () →
      create_tray (.ok img) micon icon tb = .ok ⟨tb.toOption, true⟩) := by
  refine ⟨by simp [create_tray, load_icon], fun ps es => by
    simp [start, create_tray, load_icon], ?_, ?_⟩
  · intro h
    simp [create_tray, load_icon, h]
  · intro h1 h2
    simp [create_tray, load_icon, h1, h2]

theorem c8_icon_failure_fatal_witness :
    create_tray (.ok ⟨[], 1, 1⟩) (fun _ => .ok ()) (fun _ => .ok ()) (.ok ()) =
      .ok ⟨some (), true⟩ :=
  (c8_icon_failure_fatal "e" (fun _ => .ok ()) (fun _ => .ok ()) (.ok ())
      ⟨[], 1, 1⟩).2.2.2 rfl rfl

/-- C1: for every event sequence processed by the dispatch loop,
immediately after the loop finishes processing any `IconActivated`
(`IconClicked`) or `ServiceToggleRequested` (`ServiceClicked`) event,
the checkbox equals the service-running state freshly computed from the
process table (spawn/kill effects being applied to the table before the
re-query, as the claim assumes). -/
theorem c1_checkbox_invariant (s : AppState) (es : List LoopEvent)
    (i : Nat) (hi : i < (runTrace s es).length) (he : i < es.length)
    (hev : es[i] = LoopEvent.userEvent .IconClicked ∨
           es[i] = LoopEvent.userEvent .ServiceClicked) :
    ((runTrace s es)[i]).checkbox =
      get_service_status ((runTrace s es)[i]).procs := by
  induction es generalizing s i with
  | nil => exact absurd he (Nat.not_lt_zero i)
  | cons e rest ih =>
    cases i with
    | zero =>
      have hev0 : e = .userEvent .IconClicked ∨ e = .userEvent .ServiceClicked := by
        simpa using hev
      rcases hcf : step s e with ⟨s', cf⟩
      have hres : s'.checkbox = get_service_status s'.procs := by
        have hr := step_resync s e hev0
        rw [hcf] at hr
        exact hr
      cases cf with
      | Exit =>
        have htr : runTrace s (e :: rest) = [s'] := by
          simp [runTrace, hcf]
        simpa [htr] using hres
      | WaitUntil =>
        have htr : runTrace s (e :: rest) = s' :: runTrace s' rest := by
          simp [runTrace, hcf]
        simpa [htr] using hres
    | succ n =>
      have he2 : n < rest.length := Nat.lt_of_succ_lt_succ he
      have hev2 : rest[n] = LoopEvent.userEvent .IconClicked ∨
          rest[n] = LoopEvent.userEvent .ServiceClicked := by
        simpa using hev
      rcases hcf : step s e with ⟨s', cf⟩
      cases cf with
      | Exit =>
        exfalso
        have hlen : (runTrace s (e :: rest)).length = 1 := by
          simp [runTrace, hcf]
        rw [hlen] at hi
        omega
      | WaitUntil =>
        have htr : runTrace s (e :: rest) = s' :: runTrace s' rest := by
          simp [runTrace, hcf]
        have hi2 : n < (runTrace s' rest).length := by
          have hi3 := hi
          rw [htr] at hi3
          simpa using hi3
        have hmain := ih s' n hi2 he2 hev2
        simpa [htr] using hmain

theorem c1_checkbox_invariant_witness :
    ((runTrace ⟨some (), true, [], 0⟩
        [LoopEvent.userEvent .ServiceClicked,
         LoopEvent.userEvent .IconClicked]).get ⟨1, by decide⟩).checkbox =
      get_service_status
        (((runTrace ⟨some (), true, [], 0⟩
            [LoopEvent.userEvent .ServiceClicked,
             LoopEvent.userEvent .IconClicked]).get ⟨1, by decide⟩).procs) :=
  c1_checkbox_invariant ⟨some (), true, [], 0⟩
    [LoopEvent.userEvent .ServiceClicked, LoopEvent.userEvent .IconClicked]
    1 (by decide) (by decide) (Or.inl (by decide))

theorem c10_frame_witness :
    step ⟨some (), true, [], 0⟩ (.userEvent (.UpdateService false)) =
      (⟨some (), true, [], 0⟩, LoopControlFlow.WaitUntil) :=
  (c10_frame ⟨some (), true, [], 0⟩ (.userEvent (.UpdateService false))
      ⟨by decide, by decide, by decide⟩).1

end RimeTool
